import Mathlib

/-!
Shallow embedding of `awscli/customizations/s3/fileinfo.py`.

Effectful Python code is modelled by explicit parameters:
  * the remote service is an oracle (e.g. the ETag a `PutObject` call
    returns, or the outcome of each step of `move`),
  * request dictionaries become finite maps `String → Option PValue`,
  * local-filesystem writes become an explicit event trace.

Helpers imported from `awscli.customizations.s3.utils` (`check_etag`,
`find_bucket_key`, `guess_content_type`, `retrieve_http_etag`, `operate`)
are not part of this snapshot; where their behaviour matters they are
modelled from the spec and marked as such.
-/

/-- Values stored in a request parameter dictionary: strings, byte bodies,
the opaque endpoint object, or the bucket configuration
`\x7b'LocationConstraint': region\x7d` used by `make_bucket`. -/
inductive PValue
  | str (s : String)
  | bytes (b : List Nat)
  | endpoint
  | bucketConf (region : String)
deriving DecidableEq, Repr

/-- A Python request dictionary, observed through key lookup. -/
abbrev Params := String → Option PValue

/-- The empty dictionary. -/
def emptyParams : Params := fun _ => none

/-- Python dictionary assignment `params[k] = v`. -/
def setParam (ps : Params) (k : String) (v : PValue) : Params :=
  fun q => if q = k then some v else ps q

/-- Python dictionary lookup `params[k]`. -/
def getParam (ps : Params) (k : String) : Option PValue := ps k

/-- Python `s.split(sep, 1)` on the character list: `none` when the
separator does not occur, otherwise the parts before and after its first
occurrence. -/
def splitFirst (sep : Char) : List Char → Option (List Char × List Char)
  | [] => none
  | c :: cs =>
    if c = sep then some ([], cs)
    else (splitFirst sep cs).map (fun p => (c :: p.1, p.2))

/-- Python `os.path.dirname`: everything before the last `/` (empty when
there is no slash). -/
def dirname (p : String) : String :=
  ⟨((p.data.reverse.dropWhile (· ≠ '/')).drop 1).reverse⟩

/-- Errors raised by the embedded operations.  `valueError` is Python's
`ValueError` (validation), `md5Mismatch` the distinct data-integrity error
raised by `check_etag`, `invalidMv` the `Exception("Invalid path arguments
for mv")` of `move`, `transport` a remote-call failure, and `dirError` a
failure inside the directory-creation try-block of `save_file`. -/
inductive DirErr
  | alreadyExists
  | otherFailure (msg : String)
deriving DecidableEq, Repr

inductive Err
  | valueError (msg : String)
  | md5Mismatch
  | invalidMv
  | transport
  | dirError (e : DirErr)
deriving DecidableEq, Repr

/-- Modelled from the spec: `find_bucket_key` is imported from
`awscli.customizations.s3.utils`, which is not in this snapshot.  Per the
spec a remote location has the form `container/key`; the function splits it
into the container (bucket) and the key at the first `/`. -/
def find_bucket_key (s3Path : String) : String × String :=
  match splitFirst '/' s3Path.data with
  | none => (s3Path, "")
  | some (b, k) => (⟨b⟩, ⟨k⟩)

/-- Modelled from the spec: `check_etag` is imported from
`awscli.customizations.s3.utils`, which is not in this snapshot.  Per the
spec it compares the checksum computed locally from the payload with the
server-returned ETag and raises a distinct data-integrity error on any
mismatch.  The local checksum function is abstracted as `hash`. -/
def check_etag (hash : List Nat → String) (etag : String) (data : List Nat) :
    Except Err Unit :=
  if hash data = etag then Except.ok () else Except.error Err.md5Mismatch

/-- A concrete checksum function used to instantiate the abstract `hash`
in closed statements: the decimal length of the payload. -/
def hashLen (data : List Nat) : String := toString data.length

/-- The `self.parameters` configuration bag of `FileInfo`.  Python probes
each key for truthiness; a list-valued option is falsy exactly when the
list is empty, and the boolean flags model truthiness of `sse` and
`guess_mime_type`. -/
structure Parameters where
  acl : List String
  grants : List String
  sse : Bool
  storageClass : List String
  website_redirect : List String
  guess_mime_type : Bool
  content_type : List String
  cache_control : List String
  content_disposition : List String
  content_encoding : List String
  content_language : List String
  expires : List String
deriving Repr

/-- A configuration bag with every option unset. -/
def defaultParameters : Parameters :=
  ⟨[], [], false, [], [], false, [], [], [], [], [], []⟩

/-- Python `grant.split('=', 1)` followed by unpacking into
`permission, grantee`; unpacking a one-element list (no `=` present)
raises `ValueError('grants should be of the form permission=principal')`. -/
def grantSplit (grant : String) : Except Err (String × String) :=
  match splitFirst '=' grant.data with
  | none =>
    Except.error (Err.valueError "grants should be of the form permission=principal")
  | some (p, g) => Except.ok (⟨p⟩, ⟨g⟩)

/-- `FileInfo._permission_to_param`: maps a permission keyword to its grant
parameter slot, raising `ValueError` for anything outside the four
recognized keywords. -/
def FileInfo.permission_to_param (permission : String) : Except Err String :=
  if permission = "read" then Except.ok "grant_read"
  else if permission = "full" then Except.ok "grant_full_control"
  else if permission = "readacl" then Except.ok "grant_read_acp"
  else if permission = "writeacl" then Except.ok "grant_write_acp"
  else Except.error (Err.valueError "permission must be one of: read|readacl|writeacl|full")

/-- One iteration of the grants loop of `_handle_object_params`:
`permission, grantee = grant.split('=', 1)` (re-raised as the grants
`ValueError`) then `params[self._permission_to_param(permission)] = grantee`. -/
def applyGrant (params : Params) (grant : String) : Except Err Params :=
  match grantSplit grant with
  | Except.error e => Except.error e
  | Except.ok (permission, grantee) =>
    match FileInfo.permission_to_param permission with
    | Except.error e => Except.error e
    | Except.ok slot => Except.ok (setParam params slot (PValue.str grantee))

/-- The common shape `if self.parameters[opt]: params[key] = self.parameters[opt][0]`
used by `_handle_object_params` for the list-valued options. -/
def applyOpt (key : String) (vals : List String) (params : Params) : Params :=
  match vals with
  | [] => params
  | a :: _ => setParam params key (PValue.str a)

/-- `FileInfo._inject_content_type`: add a content type param if the
external guesser (`guess_content_type`, abstracted as `guess`) returns one. -/
def FileInfo.inject_content_type (guess : String → Option String)
    (params : Params) (filename : String) : Params :=
  match guess filename with
  | some t => setParam params "content_type" (PValue.str t)
  | none => params

/-- The straight-line tail of `_handle_object_params` after the grants
loop, in source order: sse, storage_class, website_redirect,
guess_mime_type (content-type injection), then the explicit content_type
and the remaining pass-through metadata options.  None of these can raise. -/
def applyMetadataOpts (guess : String → Option String) (p : Parameters)
    (src : String) (params : Params) : Params :=
  let params :=
    if p.sse then setParam params "server_side_encryption" (PValue.str "AES256")
    else params
  let params := applyOpt "storage_class" p.storageClass params
  let params := applyOpt "website_redirect_location" p.website_redirect params
  let params :=
    if p.guess_mime_type then FileInfo.inject_content_type guess params src
    else params
  let params := applyOpt "content_type" p.content_type params
  let params := applyOpt "cache_control" p.cache_control params
  let params := applyOpt "content_disposition" p.content_disposition params
  let params := applyOpt "content_encoding" p.content_encoding params
  let params := applyOpt "content_language" p.content_language params
  applyOpt "expires" p.expires params

/-- `FileInfo._handle_object_params`: applies the configuration options to
the request dictionary in source order: acl first, then the grants loop
(the only part that can raise), then the metadata options. -/
def FileInfo.handle_object_params (guess : String → Option String)
    (p : Parameters) (src : String) (params : Params) : Except Err Params :=
  match p.grants.foldlM applyGrant (applyOpt "acl" p.acl params) with
  | Except.error e => Except.error e
  | Except.ok params => Except.ok (applyMetadataOpts guess p src params)

/-- The request dictionary `upload` builds before applying the option
pipeline: endpoint, bucket and key, plus the body exactly when the bytes
read from the source file are non-empty (`if body:`). -/
def uploadInitParams (body : List Nat) (dest : String) : Params :=
  let bk := find_bucket_key dest
  let params :=
    setParam (setParam (setParam emptyParams "endpoint" PValue.endpoint)
      "bucket" (PValue.str bk.1)) "key" (PValue.str bk.2)
  if body.isEmpty then params else setParam params "body" (PValue.bytes body)

/-- `FileInfo.upload`.  `body` is the result of `read_file(self.src)`,
`respEtag` the ETag extracted (`retrieve_http_etag`) from the HTTP response
of the `PutObject` call.  The first component is the request dictionary
handed to `operate` (`none` when the option pipeline raised before the
remote call); the second is the overall outcome, which after the remote
call returns is decided by `check_etag(etag, body)`. -/
def FileInfo.upload (hash : List Nat → String) (guess : String → Option String)
    (body : List Nat) (src dest : String) (p : Parameters)
    (respEtag : String) : Option Params × Except Err Unit :=
  match FileInfo.handle_object_params guess p src (uploadInitParams body dest) with
  | Except.error e => (none, Except.error e)
  | Except.ok ps => (some ps, check_etag hash respEtag body)

/-- The parsed data of a `GetObject` response as `save_file` reads it:
the byte payload of `response_data['Body']` and the raw quoted
`response_data['ETag']` field. -/
structure ResponseData where
  body : List Nat
  etagField : String
deriving DecidableEq, Repr

/-- A datetime split into whole epoch seconds and microseconds;
`timetuple()` followed by `time.mktime` and `int` keeps the seconds and
drops the microseconds. -/
structure Timestamp where
  seconds : Int
  microseconds : Nat
deriving DecidableEq, Repr

/-- Observable local-filesystem actions of `save_file`, in order of
invocation: `os.makedirs(d)`, the `open(filename,'wb')`/`write(data)`
block, and `os.utime(filename, (atime, mtime))`. -/
inductive FsEvent
  | makedirs (d : String)
  | openWrite (filename : String) (data : List Nat)
  | utime (filename : String) (atime mtime : Int)
deriving DecidableEq, Repr

/-- The directory-creation block of `save_file`:
`try: if not os.path.exists(d): os.makedirs(d) except Exception: pass`.
`dirExists` is the result of `os.path.exists(d)` and `makedirsResult` the
outcome of `os.makedirs(d)`; the except-clause swallows every failure,
whatever its kind. -/
def makedirs_try (dirExists : Bool) (makedirsResult : Except DirErr Unit) :
    Except DirErr Unit :=
  match (if dirExists then Except.ok () else makedirsResult) with
  | Except.ok _ => Except.ok ()
  | Except.error _ => Except.ok ()

/-- `save_file(filename, response_data, last_update)`.  Returns the trace
of filesystem actions performed and the outcome.  The ETag is the quoted
field stripped of its first and last character (`[1:-1]`); `check_etag`
runs before any filesystem action; a failure escaping the directory
try-block would propagate as `dirError`. -/
def save_file (hash : List Nat → String) (filename : String)
    (response_data : ResponseData) (last_update : Timestamp)
    (dirExists : Bool) (makedirsResult : Except DirErr Unit) :
    List FsEvent × Except Err Unit :=
  let data := response_data.body
  let etag := (response_data.etagField.drop 1).dropRight 1
  match check_etag hash etag data with
  | Except.error e => ([], Except.error e)
  | Except.ok _ =>
    let d := dirname filename
    let dirEvents : List FsEvent := if dirExists then [] else [FsEvent.makedirs d]
    match makedirs_try dirExists makedirsResult with
    | Except.error e => (dirEvents, Except.error (Err.dirError e))
    | Except.ok _ =>
      (dirEvents ++
        [FsEvent.openWrite filename data,
         FsEvent.utime filename last_update.seconds last_update.seconds],
       Except.ok ())

/-- The steps `move` can invoke: the three transfer methods and `delete`. -/
inductive MoveStep
  | upload
  | copy
  | download
  | delete
deriving DecidableEq, Repr

/-- Runs a transfer step and, only when it returns normally, the trailing
`self.delete()` of `move`.  `runStep` is the oracle giving each step's
outcome; the list records which steps were invoked, in order. -/
def thenDelete (t : MoveStep) (runStep : MoveStep → Except Err Unit) :
    List MoveStep × Except Err Unit :=
  match runStep t with
  | Except.error e => ([t], Except.error e)
  | Except.ok _ =>
    match runStep MoveStep.delete with
    | Except.error e => ([t, MoveStep.delete], Except.error e)
    | Except.ok _ => ([t, MoveStep.delete], Except.ok ())

/-- `FileInfo.move`: dispatch on `(self.src_type, self.dest_type)`; the
unmatched combinations raise `Exception("Invalid path arguments for mv")`
before any step runs, and `self.delete()` follows a completed transfer. -/
def FileInfo.move (src_type dest_type : String)
    (runStep : MoveStep → Except Err Unit) : List MoveStep × Except Err Unit :=
  if src_type = "local" ∧ dest_type = "s3" then thenDelete MoveStep.upload runStep
  else if src_type = "s3" ∧ dest_type = "s3" then thenDelete MoveStep.copy runStep
  else if src_type = "s3" ∧ dest_type = "local" then thenDelete MoveStep.download runStep
  else ([], Except.error Err.invalidMv)

/-- `TaskInfo.make_bucket`: the `CreateBucket` request dictionary; the
`create_bucket_configuration` entry (`\x7b'LocationConstraint': region\x7d`)
is added exactly when `self.region != 'us-east-1'`. -/
def TaskInfo.make_bucket (src region : String) : Params :=
  let bk := find_bucket_key src
  let params := setParam (setParam emptyParams "endpoint" PValue.endpoint)
    "bucket" (PValue.str bk.1)
  if region ≠ "us-east-1" then
    setParam params "create_bucket_configuration" (PValue.bucketConf region)
  else params

/-- The request-dictionary keys the option pipeline can write. -/
def pipelineKeys : List String :=
  ["acl", "grant_read", "grant_full_control", "grant_read_acp",
   "grant_write_acp", "server_side_encryption", "storage_class",
   "website_redirect_location", "content_type", "cache_control",
   "content_disposition", "content_encoding", "content_language", "expires"]

/-- A step oracle where every transfer and delete step succeeds. -/
def allOkSteps : MoveStep → Except Err Unit := fun _ => Except.ok ()

/-- Projects the dictionary out of a successful pipeline result. -/
def okParams : Except Err Params → Params
  | Except.ok ps => ps
  | Except.error _ => emptyParams

/-- A concrete content-type guesser used in closed statements: maps paths
ending in `.json` to the JSON content type. -/
def guessJson (filename : String) : Option String :=
  if (".json".data).isSuffixOf filename.data then some "application/json"
  else none

/-- Configuration with mime guessing on and an explicit content type. -/
def guessExplicitParameters : Parameters :=
  { defaultParameters with guess_mime_type := true, content_type := ["text/plain"] }

/-- Configuration with mime guessing on and no explicit content type. -/
def guessOnlyParameters : Parameters :=
  { defaultParameters with guess_mime_type := true }

/-- Configuration whose grants list holds one malformed entry. -/
def badGrantsParameters : Parameters :=
  { defaultParameters with grants := ["badformat"] }

theorem setParam_self (ps : Params) (k : String) (v : PValue) :
    setParam ps k v k = some v := by
  simp [setParam]

theorem setParam_ne (ps : Params) (k : String) (v : PValue) (q : String)
    (h : q ≠ k) : setParam ps k v q = ps q := by
  simp [setParam, h]

theorem applyOpt_ne (key : String) (vals : List String) (ps : Params)
    (q : String) (h : q ≠ key) : applyOpt key vals ps q = ps q := by
  cases vals <;> simp [applyOpt, setParam, h]

theorem applyOpt_nil (key : String) (ps : Params) : applyOpt key [] ps = ps := rfl

theorem inject_content_type_ne (guess : String → Option String) (ps : Params)
    (filename : String) (q : String) (h : q ≠ "content_type") :
    FileInfo.inject_content_type guess ps filename q = ps q := by
  unfold FileInfo.inject_content_type
  cases guess filename <;> simp [setParam, h]

theorem inject_content_type_ct (guess : String → Option String) (ps : Params)
    (filename : String) :
    FileInfo.inject_content_type guess ps filename "content_type" =
      (match guess filename with
       | some t => some (PValue.str t)
       | none => ps "content_type") := by
  unfold FileInfo.inject_content_type
  cases guess filename <;> simp [setParam]

theorem permission_to_param_slots (permission slot : String)
    (h : FileInfo.permission_to_param permission = Except.ok slot) :
    slot = "grant_read" ∨ slot = "grant_full_control" ∨
      slot = "grant_read_acp" ∨ slot = "grant_write_acp" := by
  unfold FileInfo.permission_to_param at h
  split_ifs at h <;> simp_all

theorem exceptBind_ok {α β : Type} (a : α) (f : α → Except Err β) :
    (Except.ok a >>= f) = f a := rfl

theorem exceptBind_error {α β : Type} (e : Err) (f : α → Except Err β) :
    ((Except.error e : Except Err α) >>= f) = Except.error e := rfl

theorem applyGrant_preserves (ps ps' : Params) (g : String)
    (h : applyGrant ps g = Except.ok ps') (q : String)
    (h1 : q ≠ "grant_read") (h2 : q ≠ "grant_full_control")
    (h3 : q ≠ "grant_read_acp") (h4 : q ≠ "grant_write_acp") :
    ps' q = ps q := by
  unfold applyGrant at h
  split at h
  · exact absurd h (by simp)
  next permission grantee hsp =>
    split at h
    · exact absurd h (by simp)
    next slot hp =>
      have hps : setParam ps slot (PValue.str grantee) = ps' := by
        simpa using h
      rw [← hps]
      rcases permission_to_param_slots permission slot hp with h' | h' | h' | h' <;>
        (subst h'; simp [setParam, h1, h2, h3, h4])

theorem grantsFold_preserves (gs : List String) (ps ps' : Params)
    (h : gs.foldlM applyGrant ps = Except.ok ps') (q : String)
    (h1 : q ≠ "grant_read") (h2 : q ≠ "grant_full_control")
    (h3 : q ≠ "grant_read_acp") (h4 : q ≠ "grant_write_acp") :
    ps' q = ps q := by
  induction gs generalizing ps with
  | nil =>
    have hps : ps = ps' := by simpa [List.foldlM, pure, Except.pure] using h
    rw [hps]
  | cons g gs ih =>
    rw [List.foldlM_cons] at h
    cases hg : applyGrant ps g with
    | error e =>
      rw [hg, exceptBind_error] at h
      exact absurd h (by simp)
    | ok ps1 =>
      rw [hg, exceptBind_ok] at h
      rw [ih ps1 h, applyGrant_preserves ps ps1 g hg q h1 h2 h3 h4]

theorem sse_step_ne (b : Bool) (ps : Params) (q : String)
    (h : q ≠ "server_side_encryption") :
    (if b then setParam ps "server_side_encryption" (PValue.str "AES256") else ps) q
      = ps q := by
  cases b <;> simp [setParam, h]

theorem guess_step_ne (b : Bool) (guess : String → Option String) (ps : Params)
    (src q : String) (h : q ≠ "content_type") :
    (if b then FileInfo.inject_content_type guess ps src else ps) q = ps q := by
  cases b <;> simp [inject_content_type_ne _ _ _ _ h]

theorem handle_object_params_ok (guess : String → Option String)
    (p : Parameters) (src : String) (params ps : Params)
    (h : FileInfo.handle_object_params guess p src params = Except.ok ps) :
    ∃ ps2, p.grants.foldlM applyGrant (applyOpt "acl" p.acl params) = Except.ok ps2 ∧
      ps = applyMetadataOpts guess p src ps2 := by
  unfold FileInfo.handle_object_params at h
  cases hfold : p.grants.foldlM applyGrant (applyOpt "acl" p.acl params) with
  | error e => rw [hfold] at h; exact absurd h (by simp)
  | ok ps2 =>
    rw [hfold] at h
    exact ⟨ps2, rfl, (Except.ok.inj h).symm⟩

theorem applyMetadataOpts_ne (guess : String → Option String) (p : Parameters)
    (src : String) (ps : Params) (q : String)
    (h6 : q ≠ "server_side_encryption") (h7 : q ≠ "storage_class")
    (h8 : q ≠ "website_redirect_location") (h9 : q ≠ "content_type")
    (h10 : q ≠ "cache_control") (h11 : q ≠ "content_disposition")
    (h12 : q ≠ "content_encoding") (h13 : q ≠ "content_language")
    (h14 : q ≠ "expires") :
    applyMetadataOpts guess p src ps q = ps q := by
  simp only [applyMetadataOpts]
  rw [applyOpt_ne _ _ _ _ h14, applyOpt_ne _ _ _ _ h13, applyOpt_ne _ _ _ _ h12,
      applyOpt_ne _ _ _ _ h11, applyOpt_ne _ _ _ _ h10, applyOpt_ne _ _ _ _ h9,
      guess_step_ne _ _ _ _ _ h9, applyOpt_ne _ _ _ _ h8, applyOpt_ne _ _ _ _ h7,
      sse_step_ne _ _ _ h6]

theorem handle_object_params_preserves (guess : String → Option String)
    (p : Parameters) (src : String) (params ps : Params) (q : String)
    (h : FileInfo.handle_object_params guess p src params = Except.ok ps)
    (hq : q ∉ pipelineKeys) :
    ps q = params q := by
  simp [pipelineKeys] at hq
  obtain ⟨hn1, hn2, hn3, hn4, hn5, hn6, hn7, hn8, hn9, hn10, hn11, hn12, hn13, hn14⟩ := hq
  obtain ⟨ps2, hfold, hps⟩ := handle_object_params_ok guess p src params ps h
  rw [hps, applyMetadataOpts_ne guess p src ps2 q hn6 hn7 hn8 hn9 hn10 hn11 hn12 hn13 hn14,
      grantsFold_preserves _ _ _ hfold _ hn2 hn3 hn4 hn5,
      applyOpt_ne _ _ _ _ hn1]

theorem handle_object_params_grants_nil (guess : String → Option String)
    (p : Parameters) (src : String) (params : Params) (hg : p.grants = []) :
    ∃ ps, FileInfo.handle_object_params guess p src params = Except.ok ps := by
  unfold FileInfo.handle_object_params
  rw [hg]
  exact ⟨_, rfl⟩

theorem applyMetadataOpts_content_type (guess : String → Option String)
    (p : Parameters) (src : String) (ps : Params) :
    applyMetadataOpts guess p src ps "content_type" =
      (match p.content_type with
       | ct :: _ => some (PValue.str ct)
       | [] =>
         if p.guess_mime_type then
           match guess src with
           | some t => some (PValue.str t)
           | none => ps "content_type"
         else ps "content_type") := by
  simp only [applyMetadataOpts]
  rw [applyOpt_ne _ _ _ _ (by decide), applyOpt_ne _ _ _ _ (by decide),
      applyOpt_ne _ _ _ _ (by decide), applyOpt_ne _ _ _ _ (by decide),
      applyOpt_ne _ _ _ _ (by decide)]
  cases hct : p.content_type with
  | cons ct rest => simp [applyOpt, setParam]
  | nil =>
    rw [applyOpt_nil]
    cases hgm : p.guess_mime_type with
    | false =>
      simp only [Bool.false_eq_true, if_false]
      rw [applyOpt_ne _ _ _ _ (by decide), applyOpt_ne _ _ _ _ (by decide),
          sse_step_ne _ _ _ (by decide)]
    | true =>
      simp only [if_true]
      rw [inject_content_type_ct]
      cases hguess : guess src with
      | some t => rfl
      | none =>
        rw [applyOpt_ne _ _ _ _ (by decide), applyOpt_ne _ _ _ _ (by decide),
            sse_step_ne _ _ _ (by decide)]

theorem splitFirst_of_not_mem (sep : Char) (l : List Char) (h : sep ∉ l) :
    splitFirst sep l = none := by
  induction l with
  | nil => rfl
  | cons c cs ih =>
    simp only [List.mem_cons, not_or] at h
    obtain ⟨h1, h2⟩ := h
    simp [splitFirst, Ne.symm h1, ih h2]

theorem splitFirst_append_sep (sep : Char) (l r : List Char) (h : sep ∉ l) :
    splitFirst sep (l ++ sep :: r) = some (l, r) := by
  induction l with
  | nil => simp [splitFirst]
  | cons c cs ih =>
    simp only [List.mem_cons, not_or] at h
    obtain ⟨h1, h2⟩ := h
    simp [splitFirst, Ne.symm h1, ih h2]

theorem grantSplit_no_sep (g : String) (h : '=' ∉ g.data) :
    grantSplit g =
      Except.error (Err.valueError "grants should be of the form permission=principal") := by
  unfold grantSplit
  rw [splitFirst_of_not_mem _ _ h]

theorem grantSplit_splits_on_first (p q : String) (h : '=' ∉ p.data) :
    grantSplit (p ++ "=" ++ q) = Except.ok (p, q) := by
  unfold grantSplit
  have hd : (p ++ "=" ++ q).data = p.data ++ '=' :: q.data := by
    simp [String.data_append]
  rw [hd, splitFirst_append_sep _ _ _ h]

theorem makedirs_try_ok (dirExists : Bool) (r : Except DirErr Unit) :
    makedirs_try dirExists r = Except.ok () := by
  cases dirExists with
  | true => rfl
  | false => unfold makedirs_try; cases r <;> rfl

theorem applyGrant_eq (params : Params) (g perm grantee : String)
    (h : grantSplit g = Except.ok (perm, grantee)) :
    applyGrant params g =
      (match FileInfo.permission_to_param perm with
       | Except.error e => Except.error e
       | Except.ok slot => Except.ok (setParam params slot (PValue.str grantee))) := by
  unfold applyGrant
  rw [h]

theorem uploadInitParams_lookup (body : List Nat) (dest : String) :
    uploadInitParams body dest "body"
      = (if body.isEmpty then none else some (PValue.bytes body)) ∧
    uploadInitParams body dest "endpoint" = some PValue.endpoint ∧
    uploadInitParams body dest "bucket" = some (PValue.str (find_bucket_key dest).1) ∧
    uploadInitParams body dest "key" = some (PValue.str (find_bucket_key dest).2) := by
  unfold uploadInitParams
  cases hb : body.isEmpty <;> simp [setParam, emptyParams]

theorem thenDelete_delete_mem (t : MoveStep) (runStep : MoveStep → Except Err Unit)
    (ht : t ≠ MoveStep.delete)
    (h : MoveStep.delete ∈ (thenDelete t runStep).1) :
    runStep t = Except.ok () ∧ (thenDelete t runStep).1 = [t, MoveStep.delete] := by
  unfold thenDelete at *
  cases hr : runStep t with
  | error e =>
    rw [hr] at h
    simp at h
    exact absurd h.symm ht
  | ok u =>
    cases u
    refine ⟨rfl, ?_⟩
    cases hd : runStep MoveStep.delete <;> simp

/-- C9: `make_bucket` includes the location-constraint bucket configuration
in the `CreateBucket` request parameters if and only if the region differs
from the default region `us-east-1`: for `us-east-1` the constraint is
omitted, for any other region it is set to that region; endpoint and bucket
are always present. -/
theorem make_bucket_location_constraint (src region : String) :
    getParam (TaskInfo.make_bucket src region) "create_bucket_configuration"
      = (if region = "us-east-1" then none else some (PValue.bucketConf region)) ∧
    getParam (TaskInfo.make_bucket src region) "endpoint" = some PValue.endpoint ∧
    getParam (TaskInfo.make_bucket src region) "bucket"
      = some (PValue.str (find_bucket_key src).1) := by
  unfold TaskInfo.make_bucket getParam
  by_cases h : region = "us-east-1"
  · simp [h, setParam, emptyParams]
  · simp [h, setParam, emptyParams]

/-- C3: `move` dispatches on (source kind, destination kind): local→s3
uploads then deletes the source, s3→s3 copies then deletes, s3→local
downloads then deletes, and every other combination (local→local in
particular) fails with the invalid-arguments error, with no transfer and
no delete step invoked. -/
theorem move_dispatch (runStep : MoveStep → Except Err Unit)
    (hok : ∀ s, runStep s = Except.ok ()) :
    FileInfo.move "local" "s3" runStep
      = ([MoveStep.upload, MoveStep.delete], Except.ok ()) ∧
    FileInfo.move "s3" "s3" runStep
      = ([MoveStep.copy, MoveStep.delete], Except.ok ()) ∧
    FileInfo.move "s3" "local" runStep
      = ([MoveStep.download, MoveStep.delete], Except.ok ()) ∧
    (∀ (src dest : String) (r : MoveStep → Except Err Unit),
      ¬(src = "local" ∧ dest = "s3") → ¬(src = "s3" ∧ dest = "s3") →
      ¬(src = "s3" ∧ dest = "local") →
      FileInfo.move src dest r = ([], Except.error Err.invalidMv)) := by
  refine ⟨?_, ?_, ?_, ?_⟩
  · simp [FileInfo.move, thenDelete, hok]
  · simp [FileInfo.move, thenDelete, hok]
  · simp [FileInfo.move, thenDelete, hok]
  · intro src dest r h1 h2 h3
    unfold FileInfo.move
    rw [if_neg h1, if_neg h2, if_neg h3]

/-- Closed instance of C3 at a succeeding oracle and at the local→local
combination. -/
theorem move_dispatch_witness :
    FileInfo.move "local" "s3" allOkSteps
      = ([MoveStep.upload, MoveStep.delete], Except.ok ()) ∧
    FileInfo.move "local" "local" allOkSteps
      = ([], Except.error Err.invalidMv) := by
  have h := move_dispatch allOkSteps (fun _ => rfl)
  exact ⟨h.1, h.2.2.2 "local" "local" allOkSteps (by decide) (by decide) (by decide)⟩

/-- C2: within `move`, the delete step is invoked only when the transfer
step has completed successfully: whenever the performed-step trace contains
delete, it is exactly a successful transfer step followed by delete; a
transfer step that raises means delete is never invoked. -/
theorem move_delete_only_after_transfer (src dest : String)
    (runStep : MoveStep → Except Err Unit)
    (h : MoveStep.delete ∈ (FileInfo.move src dest runStep).1) :
    ∃ t, t ≠ MoveStep.delete ∧ runStep t = Except.ok () ∧
      (FileInfo.move src dest runStep).1 = [t, MoveStep.delete] := by
  unfold FileInfo.move at h ⊢
  by_cases h1 : src = "local" ∧ dest = "s3"
  · rw [if_pos h1] at h ⊢
    obtain ⟨hok, htr⟩ := thenDelete_delete_mem _ _ (by decide) h
    exact ⟨MoveStep.upload, by decide, hok, htr⟩
  · rw [if_neg h1] at h ⊢
    by_cases h2 : src = "s3" ∧ dest = "s3"
    · rw [if_pos h2] at h ⊢
      obtain ⟨hok, htr⟩ := thenDelete_delete_mem _ _ (by decide) h
      exact ⟨MoveStep.copy, by decide, hok, htr⟩
    · rw [if_neg h2] at h ⊢
      by_cases h3 : src = "s3" ∧ dest = "local"
      · rw [if_pos h3] at h ⊢
        obtain ⟨hok, htr⟩ := thenDelete_delete_mem _ _ (by decide) h
        exact ⟨MoveStep.download, by decide, hok, htr⟩
      · rw [if_neg h3] at h
        simp at h

/-- Closed instance of C2: with an all-success oracle for local→s3 the
delete in the trace comes after a successful transfer step. -/
theorem move_delete_only_after_transfer_witness :
    ∃ t, t ≠ MoveStep.delete ∧ allOkSteps t = Except.ok () ∧
      (FileInfo.move "local" "s3" allOkSteps).1 = [t, MoveStep.delete] :=
  move_delete_only_after_transfer "local" "s3" allOkSteps (by decide)

/-- C1: after the `PutObject` call returns, `upload` compares the checksum
computed locally from the uploaded bytes with the ETag extracted from the
HTTP response: it returns successfully only when the two are equal, and
whenever the request was issued and they differ it fails with the distinct
data-integrity error `md5Mismatch`, never silently succeeding. -/
theorem upload_checksum_integrity (hash : List Nat → String)
    (guess : String → Option String) (body : List Nat) (src dest : String)
    (p : Parameters) (respEtag : String) :
    ((FileInfo.upload hash guess body src dest p respEtag).2 = Except.ok () →
      hash body = respEtag) ∧
    ((FileInfo.upload hash guess body src dest p respEtag).1.isSome →
      hash body ≠ respEtag →
      (FileInfo.upload hash guess body src dest p respEtag).2
        = Except.error Err.md5Mismatch) := by
  unfold FileInfo.upload
  cases hh : FileInfo.handle_object_params guess p src (uploadInitParams body dest) with
  | error e =>
    constructor
    · intro h; simp at h
    · intro h; simp at h
  | ok ps =>
    constructor
    · intro h
      simp only [check_etag] at h
      by_cases he : hash body = respEtag
      · exact he
      · rw [if_neg he] at h
        exact absurd h (by simp)
    · intro _ he
      simp only [check_etag]
      rw [if_neg he]

/-- Closed instance of C1: a matching ETag gives success, a mismatched
ETag gives the integrity error. -/
theorem upload_checksum_integrity_witness :
    hashLen [1, 2] = "2" ∧
    (FileInfo.upload hashLen (fun _ => none) [1, 2] "f" "b/k" defaultParameters "9").2
      = Except.error Err.md5Mismatch := by
  constructor
  · exact (upload_checksum_integrity hashLen (fun _ => none) [1, 2] "f" "b/k"
      defaultParameters "2").1 rfl
  · exact (upload_checksum_integrity hashLen (fun _ => none) [1, 2] "f" "b/k"
      defaultParameters "9").2 rfl (by decide)

/-- C5: each grants entry is split on the first `=`; the four recognized
permissions map to their grant request parameters with the principal as
value; an entry with no `=` raises the grants validation error, an entry
with an unrecognized permission raises the permission validation error,
and a pipeline error means `upload` never issues the remote request. -/
theorem grants_mapping_and_validation (principal : String) (params : Params) :
    applyGrant params ("read" ++ "=" ++ principal)
      = Except.ok (setParam params "grant_read" (PValue.str principal)) ∧
    applyGrant params ("full" ++ "=" ++ principal)
      = Except.ok (setParam params "grant_full_control" (PValue.str principal)) ∧
    applyGrant params ("readacl" ++ "=" ++ principal)
      = Except.ok (setParam params "grant_read_acp" (PValue.str principal)) ∧
    applyGrant params ("writeacl" ++ "=" ++ principal)
      = Except.ok (setParam params "grant_write_acp" (PValue.str principal)) ∧
    (∀ g : String, '=' ∉ g.data →
      applyGrant params g
        = Except.error
            (Err.valueError "grants should be of the form permission=principal")) ∧
    (∀ perm grantee : String, '=' ∉ perm.data →
      perm ≠ "read" → perm ≠ "full" → perm ≠ "readacl" → perm ≠ "writeacl" →
      applyGrant params (perm ++ "=" ++ grantee)
        = Except.error
            (Err.valueError "permission must be one of: read|readacl|writeacl|full")) ∧
    (∀ (hash : List Nat → String) (guess : String → Option String)
        (body : List Nat) (src dest : String) (p : Parameters)
        (respEtag : String) (e : Err),
      FileInfo.handle_object_params guess p src (uploadInitParams body dest)
        = Except.error e →
      FileInfo.upload hash guess body src dest p respEtag
        = (none, Except.error e)) := by
  refine ⟨?_, ?_, ?_, ?_, ?_, ?_, ?_⟩
  · rw [applyGrant_eq params _ "read" principal
      (grantSplit_splits_on_first _ _ (by decide))]
    rfl
  · rw [applyGrant_eq params _ "full" principal
      (grantSplit_splits_on_first _ _ (by decide))]
    rfl
  · rw [applyGrant_eq params _ "readacl" principal
      (grantSplit_splits_on_first _ _ (by decide))]
    rfl
  · rw [applyGrant_eq params _ "writeacl" principal
      (grantSplit_splits_on_first _ _ (by decide))]
    rfl
  · intro g hg
    unfold applyGrant
    rw [grantSplit_no_sep g hg]
  · intro perm grantee hnosep hr hf hra hwa
    rw [applyGrant_eq params _ perm grantee
      (grantSplit_splits_on_first _ _ hnosep)]
    unfold FileInfo.permission_to_param
    rw [if_neg hr, if_neg hf, if_neg hra, if_neg hwa]
  · intro hash guess body src dest p respEtag e hherr
    unfold FileInfo.upload
    rw [hherr]

/-- Closed instance of C5: `read=alice` maps to the read grant slot,
`badformat` raises the grants validation error, an unknown permission
raises the permission validation error, and with a malformed grants list
`upload` issues no request. -/
theorem grants_mapping_and_validation_witness :
    applyGrant emptyParams ("read" ++ "=" ++ "alice")
      = Except.ok (setParam emptyParams "grant_read" (PValue.str "alice")) ∧
    applyGrant emptyParams "badformat"
      = Except.error
          (Err.valueError "grants should be of the form permission=principal") ∧
    applyGrant emptyParams ("badperm" ++ "=" ++ "alice")
      = Except.error
          (Err.valueError "permission must be one of: read|readacl|writeacl|full") ∧
    FileInfo.upload hashLen (fun _ => none) [1] "f" "b/k" badGrantsParameters "1"
      = (none,
         Except.error
           (Err.valueError "grants should be of the form permission=principal")) := by
  have h := grants_mapping_and_validation "alice" emptyParams
  refine ⟨h.1, h.2.2.2.2.1 "badformat" (by decide),
    h.2.2.2.2.2.1 "badperm" "alice" (by decide) (by decide) (by decide)
      (by decide) (by decide), ?_⟩
  exact h.2.2.2.2.2.2 hashLen (fun _ => none) [1] "f" "b/k" badGrantsParameters "1"
    (Err.valueError "grants should be of the form permission=principal") rfl

/-- C6: the `PutObject` request `upload` issues contains the body parameter
if and only if the bytes read from the source are non-empty; endpoint,
bucket and key are always present, and with no grants configured the
request is issued even for a zero-length source. -/
theorem upload_body_iff_nonempty (hash : List Nat → String)
    (guess : String → Option String) (body : List Nat) (src dest : String)
    (p : Parameters) (respEtag : String) :
    (p.grants = [] →
      (FileInfo.upload hash guess body src dest p respEtag).1.isSome) ∧
    (∀ ps r, FileInfo.upload hash guess body src dest p respEtag = (some ps, r) →
      getParam ps "body"
        = (if body.isEmpty then none else some (PValue.bytes body)) ∧
      getParam ps "endpoint" = some PValue.endpoint ∧
      getParam ps "bucket" = some (PValue.str (find_bucket_key dest).1) ∧
      getParam ps "key" = some (PValue.str (find_bucket_key dest).2)) := by
  constructor
  · intro hg
    obtain ⟨ps, hps⟩ :=
      handle_object_params_grants_nil guess p src (uploadInitParams body dest) hg
    unfold FileInfo.upload
    rw [hps]
    rfl
  · intro ps r h
    unfold FileInfo.upload at h
    cases hh : FileInfo.handle_object_params guess p src (uploadInitParams body dest) with
    | error e =>
      rw [hh] at h
      simp at h
    | ok ps' =>
      rw [hh] at h
      have hps : ps' = ps := by
        have := congrArg Prod.fst h
        simpa using this
      subst hps
      have hb := handle_object_params_preserves guess p src _ _ "body" hh (by decide)
      have he := handle_object_params_preserves guess p src _ _ "endpoint" hh (by decide)
      have hbu := handle_object_params_preserves guess p src _ _ "bucket" hh (by decide)
      have hk := handle_object_params_preserves guess p src _ _ "key" hh (by decide)
      have hl := uploadInitParams_lookup body dest
      exact ⟨by rw [getParam, hb, hl.1], by rw [getParam, he, hl.2.1],
        by rw [getParam, hbu, hl.2.2.1], by rw [getParam, hk, hl.2.2.2]⟩

/-- Closed instance of C6: with an empty source the request is issued and
holds no body parameter, while endpoint, bucket and key are present. -/
theorem upload_body_iff_nonempty_witness :
    (FileInfo.upload hashLen (fun _ => none) [] "f" "b/k" defaultParameters "0").1.isSome ∧
    getParam (okParams (FileInfo.handle_object_params (fun _ => none)
      defaultParameters "f" (uploadInitParams [] "b/k"))) "body" = none ∧
    getParam (okParams (FileInfo.handle_object_params (fun _ => none)
      defaultParameters "f" (uploadInitParams [] "b/k"))) "key"
      = some (PValue.str "k") := by
  have h2 := (upload_body_iff_nonempty hashLen (fun _ => none) [] "f" "b/k"
    defaultParameters "0").2
    (okParams (FileInfo.handle_object_params (fun _ => none)
      defaultParameters "f" (uploadInitParams [] "b/k")))
    (check_etag hashLen "0" []) rfl
  refine ⟨(upload_body_iff_nonempty hashLen (fun _ => none) [] "f" "b/k"
    defaultParameters "0").1 rfl, ?_, ?_⟩
  · simpa using h2.1
  · simpa using h2.2.2.2

/-- C4: in the configuration-option pipeline, with `guess_mime_type` truthy
the guessed content type is injected, and the explicit `content_type`
option (first element of its list) is applied after the guessing step, so
an explicit value always overwrites the guessed one, while with no
explicit value the guessed content type remains in the parameters. -/
theorem content_type_explicit_overrides_guess (guess : String → Option String)
    (p : Parameters) (src : String) (params ps : Params)
    (h : FileInfo.handle_object_params guess p src params = Except.ok ps) :
    (∀ ct rest, p.guess_mime_type = true → p.content_type = ct :: rest →
      getParam ps "content_type" = some (PValue.str ct)) ∧
    (p.guess_mime_type = true → p.content_type = [] →
      getParam ps "content_type" =
        (match guess src with
         | some t => some (PValue.str t)
         | none => getParam params "content_type")) := by
  obtain ⟨ps2, hfold, hps⟩ := handle_object_params_ok guess p src params ps h
  subst hps
  constructor
  · intro ct rest hgm hct
    unfold getParam
    rw [applyMetadataOpts_content_type, hct]
  · intro hgm hct
    unfold getParam
    rw [applyMetadataOpts_content_type, hct, hgm]
    cases hguess : guess src with
    | some t => rfl
    | none =>
      show ps2 "content_type" = params "content_type"
      rw [grantsFold_preserves _ _ _ hfold "content_type" (by decide) (by decide)
            (by decide) (by decide),
          applyOpt_ne "acl" _ _ "content_type" (by decide)]

/-- Closed instance of C4: for a `.json` source with mime guessing on, an
explicit `text/plain` wins; with no explicit value the guessed JSON
content type remains. -/
theorem content_type_explicit_overrides_guess_witness :
    getParam (okParams (FileInfo.handle_object_params guessJson
        guessExplicitParameters "f.json" emptyParams)) "content_type"
      = some (PValue.str "text/plain") ∧
    getParam (okParams (FileInfo.handle_object_params guessJson
        guessOnlyParameters "f.json" emptyParams)) "content_type"
      = some (PValue.str "application/json") := by
  constructor
  · exact (content_type_explicit_overrides_guess guessJson guessExplicitParameters
      "f.json" emptyParams
      (okParams (FileInfo.handle_object_params guessJson guessExplicitParameters
        "f.json" emptyParams)) rfl).1 "text/plain" [] rfl rfl
  · have h := (content_type_explicit_overrides_guess guessJson guessOnlyParameters
      "f.json" emptyParams
      (okParams (FileInfo.handle_object_params guessJson guessOnlyParameters
        "f.json" emptyParams)) rfl).2 rfl rfl
    exact h

/-- C7 counterexample: `os.makedirs` fails with an error that is not
`alreadyExists`, yet `save_file` does not propagate it — the try/except
swallows the failure and the operation still writes the file and succeeds,
contradicting the claim that only the already-exists case is tolerated. -/
theorem save_file_swallows_makedirs_failure :
    DirErr.otherFailure "Permission denied" ≠ DirErr.alreadyExists ∧
    save_file hashLen "a/b" ⟨[1, 2], "\"2\""⟩ ⟨5, 0⟩ false
        (Except.error (DirErr.otherFailure "Permission denied"))
      = ([FsEvent.makedirs "a", FsEvent.openWrite "a/b" [1, 2],
          FsEvent.utime "a/b" 5 5], Except.ok ()) := by
  exact ⟨by decide, by rfl⟩

/-- C7 amended: the directory-creation try-block of `save_file` swallows
every failure, whatever its kind — the try-block always returns
successfully and the outcome of `save_file` is independent of the
`makedirs` result; failures surface, if at all, only at the later write. -/
theorem save_file_dir_creation_tolerates_all (hash : List Nat → String)
    (fn : String) (resp : ResponseData) (lu : Timestamp) (de : Bool)
    (r r' : Except DirErr Unit) :
    makedirs_try de r = Except.ok () ∧
    save_file hash fn resp lu de r = save_file hash fn resp lu de r' := by
  refine ⟨makedirs_try_ok de r, ?_⟩
  unfold save_file
  cases check_etag hash ((resp.etagField.drop 1).dropRight 1) resp.body <;>
    simp [makedirs_try_ok]

/-- C8: when `save_file` succeeds, its filesystem trace is the optional
directory creation, then the full write of the payload, then `utime`
setting both access and modification times to the object's last-modified
timestamp truncated to whole seconds — the timestamp adjustment strictly
follows the completed write. -/
theorem save_file_write_then_utime (hash : List Nat → String) (fn : String)
    (resp : ResponseData) (lu : Timestamp) (de : Bool) (r : Except DirErr Unit)
    (h : (save_file hash fn resp lu de r).2 = Except.ok ()) :
    (save_file hash fn resp lu de r).1
      = (if de then [] else [FsEvent.makedirs (dirname fn)]) ++
        [FsEvent.openWrite fn resp.body,
         FsEvent.utime fn lu.seconds lu.seconds] := by
  simp only [save_file] at h ⊢
  cases hce : check_etag hash ((resp.etagField.drop 1).dropRight 1) resp.body with
  | error e => rw [hce] at h; simp at h
  | ok u =>
    cases u
    simp [makedirs_try_ok]

/-- Closed instance of C8 at a successful concrete download. -/
theorem save_file_write_then_utime_witness :
    (save_file hashLen "a/b" ⟨[1, 2], "\"2\""⟩ ⟨5, 0⟩ true (Except.ok ())).1
      = (if true then [] else [FsEvent.makedirs (dirname "a/b")]) ++
        [FsEvent.openWrite "a/b" [1, 2], FsEvent.utime "a/b" 5 5] :=
  save_file_write_then_utime hashLen "a/b" ⟨[1, 2], "\"2\""⟩ ⟨5, 0⟩ true
    (Except.ok ()) (by rfl)

/-- C10: when the locally computed checksum differs from the ETag in the
response, `save_file` raises the integrity error with an empty filesystem
trace: the destination file is never opened for writing, no bytes are
written, no directory is created and no timestamp is modified. -/
theorem save_file_mismatch_leaves_fs_unchanged (hash : List Nat → String)
    (fn : String) (resp : ResponseData) (lu : Timestamp) (de : Bool)
    (r : Except DirErr Unit)
    (h : hash resp.body ≠ (resp.etagField.drop 1).dropRight 1) :
    save_file hash fn resp lu de r = ([], Except.error Err.md5Mismatch) := by
  simp only [save_file, check_etag]
  rw [if_neg h]

/-- Closed instance of C10 at a concrete mismatched ETag. -/
theorem save_file_mismatch_leaves_fs_unchanged_witness :
    save_file hashLen "x/y" ⟨[1, 2], "\"9\""⟩ ⟨7, 3⟩ false (Except.ok ())
      = ([], Except.error Err.md5Mismatch) :=
  save_file_mismatch_leaves_fs_unchanged hashLen "x/y" ⟨[1, 2], "\"9\""⟩ ⟨7, 3⟩
    false (Except.ok ()) (by decide)
